import Mathlib

/-!
# gmtracker: the freshness-gated cache of the server list

A shallow embedding of `gmtracker.go`: the package variable `cache`, the
function `update` that serves it or refreshes it from the provider, the request
handler `handle`, and the two label tables `region` and `platform`.

The effects of one call are made explicit. Whatever a call of `update` can
observe from outside (the two readings of the clock and the outcome of the
HTTP exchange) is given to it as an `Env`; what it does to the outside (the
fetches it performs) and to the package variable `cache` comes back in a
`Result`.
-/

namespace Gmtracker

/-! ## Time -/

/-- An instant (`time.Time`), as a count of nanoseconds on one time line.
The zero value of `time.Time` is the instant `0`. The wall clock and the
monotonic clock of `time.Time` are not told apart, and the count is unbounded. -/
abbrev Time := Int

/-- A span of time (`time.Duration`), in nanoseconds. -/
abbrev Duration := Int

/-- The constant `time.Nanosecond`. -/
def Nanosecond : Duration := 1

/-- The constant `time.Microsecond`. -/
def Microsecond : Duration := 1000 * Nanosecond

/-- The constant `time.Millisecond`. -/
def Millisecond : Duration := 1000 * Microsecond

/-- The constant `time.Second`. -/
def Second : Duration := 1000 * Millisecond

/-- The constant `time.Minute`. -/
def Minute : Duration := 60 * Second

/-- The method `t.Add(d)`: the instant `d` after `t`. -/
def Time.Add (t : Time) (d : Duration) : Time := t + d

/-- The method `t.Before(u)`: whether `t` is strictly earlier than `u`. -/
def Time.Before (t u : Time) : Bool := decide (t < u)

/-! ## Data model -/

/-- A Go `error` value that is not nil, by its message. The nil error is
`none : Option Error`. -/
abbrev Error := String

/-- One server record of the provider response (`type ServerInfo struct`). -/
structure ServerInfo where
  Address : String
  GamePort : Int
  SteamID : String
  Name : String
  AppID : Int
  GameDirectory : String
  Version : String
  Product : String
  Region : Int
  Players : Int
  MaxPlayers : Int
  Bots : Int
  Map : String
  Secure : Bool
  Dedicated : Bool
  OS : String
  GameType : String
deriving DecidableEq, Repr

/-- The cached listing (`type Cache struct`). -/
structure Cache where
  LastUpdate : Time
  Servers : List ServerInfo
deriving DecidableEq, Repr

/-- The inner object of the provider response (the anonymous struct field
`Response` of `GetServerListResponse`). -/
structure GetServerListResponse.Inner where
  Servers : List ServerInfo
deriving DecidableEq, Repr

/-- The decoded provider response (`type GetServerListResponse struct`). -/
structure GetServerListResponse where
  Response : GetServerListResponse.Inner
deriving DecidableEq, Repr

/-- The zero value of the package variable `cache` at process start. -/
def Cache.zero : Cache := { LastUpdate := 0, Servers := [] }

/-! ## The environment of one call -/

/-- The outcome of the HTTP exchange of lines 111 to 120, if it is attempted. -/
inductive Fetch where
  /-- The call `http.Get` returns an error (line 112). -/
  | getFailed (err : Error)
  /-- The call `http.Get` succeeds and `Decode` returns an error (line 118). -/
  | decodeFailed (err : Error)
  /-- Both succeed, and `response` is the decoded value. -/
  | decoded (response : GetServerListResponse)
deriving DecidableEq, Repr

/-- What one call of `update` observes from outside the program. -/
structure Env where
  /-- The reading of `time.Now()` at line 102. -/
  now : Time
  /-- The outcome of the HTTP exchange, should the call reach line 111. -/
  fetch : Fetch
  /-- The reading of `time.Now()` at line 122, should the call reach it. -/
  nowAfter : Time
deriving DecidableEq, Repr

/-- What one call of `update` gives back and does. -/
structure Result where
  /-- The first return value. -/
  ret : Cache
  /-- The second return value; `none` is the nil error. -/
  err : Option Error
  /-- The package variable `cache` when the call returns. -/
  cache : Cache
  /-- The HTTP exchanges the call performed, in order. -/
  fetches : List Fetch
deriving DecidableEq, Repr

/-! ## update -/

/-- The function `update` (lines 101 to 126), run on the package variable
`cache` in the environment `env`. -/
def update (cache : Cache) (env : Env) : Result :=
  if Time.Before env.now (Time.Add cache.LastUpdate Minute) then
    { ret := cache, err := none, cache := cache, fetches := [] }
  else
    match env.fetch with
    | .getFailed err =>
      { ret := cache, err := some err, cache := cache, fetches := [env.fetch] }
    | .decodeFailed err =>
      { ret := cache, err := some err, cache := cache, fetches := [env.fetch] }
    | .decoded response =>
      let cache := { cache with LastUpdate := env.nowAfter }
      let cache := { cache with Servers := response.Response.Servers }
      { ret := cache, err := none, cache := cache, fetches := [env.fetch] }

/-! ## Label tables -/

/-- The function `region` (lines 128 to 149). -/
def region (region : Int) : String :=
  match region with
  | 0 => "US - East"
  | 1 => "US - West"
  | 2 => "South America"
  | 3 => "Europe"
  | 4 => "Asia"
  | 5 => "Australia"
  | 6 => "Middle East"
  | 7 => "Africa"
  | _ => "World"

/-- The function `platform` (lines 151 to 162). -/
def platform (platform : String) : String :=
  match platform with
  | "w" => "Windows"
  | "m" => "Mac"
  | "l" => "Linux"
  | _ => "Other"

/-! ## handle -/

/-- The constant `http.StatusOK`. -/
def StatusOK : Nat := 200

/-- The constant `http.StatusInternalServerError`. -/
def StatusInternalServerError : Nat := 500

/-- The `http.ResponseWriter` of one request, as far as the status line and the
body go (headers other than the status are left out). -/
structure ResponseWriter where
  /-- Whether the status line is already fixed. -/
  wroteHeader : Bool
  /-- The status of the answer, once `wroteHeader` holds. -/
  status : Nat
  /-- The bytes written to the body so far. -/
  body : String
deriving DecidableEq, Repr

/-- The writer a handler is given: nothing written yet. -/
def ResponseWriter.fresh : ResponseWriter := { wroteHeader := false, status := 0, body := "" }

/-- The method `w.WriteHeader(code)` of `net/http`: the first call fixes the
status, and a later call changes nothing. -/
def ResponseWriter.WriteHeader (w : ResponseWriter) (code : Nat) : ResponseWriter :=
  if w.wroteHeader then w else { w with wroteHeader := true, status := code }

/-- The method `w.Write(data)` of `net/http`: a write before any `WriteHeader`
first fixes the status at `StatusOK`, then the data go to the body. -/
def ResponseWriter.Write (w : ResponseWriter) (data : String) : ResponseWriter :=
  let w := if !w.wroteHeader then w.WriteHeader StatusOK else w
  { w with body := w.body ++ data }

/-- The function `http.Error(w, error, code)` of `net/http`: `WriteHeader(code)`
followed by writing the text and a newline. -/
def httpError (w : ResponseWriter) (error : String) (code : Nat) : ResponseWriter :=
  (w.WriteHeader code).Write (error ++ "\n")

/-- What `net/http` does when the handler returns: a handler that fixed no
status is answered with `StatusOK`. -/
def ResponseWriter.finish (w : ResponseWriter) : ResponseWriter :=
  w.WriteHeader StatusOK

/-- What one run of `tmpl.Execute(w, si)` does: the writes it makes to `w`, in
order, and the error it returns (`none` is the nil error). The template streams
into `w`, so an error can follow writes already made. -/
structure Rendering where
  /-- The data of the calls of `w.Write`, in order. -/
  writes : List String
  /-- The error returned by `Execute`. -/
  err : Option Error
deriving DecidableEq, Repr

/-- What one call of `handle` does. -/
structure Handled where
  /-- The data argument `si` given to `tmpl.Execute` at line 94. -/
  rendered : Cache
  /-- The status of the answer the client gets. -/
  status : Nat
  /-- The body of the answer. -/
  body : String
  /-- The lines given to `log.Printf`, in order. -/
  log : List String
  /-- The package variable `cache` when the call returns. -/
  cache : Cache
  /-- The HTTP exchanges the call performed, in order. -/
  fetches : List Fetch
deriving DecidableEq, Repr

/-- The function `handle` (lines 88 to 99), on a fresh response writer. The
template of the package variable `tmpl` is outside the embedding: `Execute`
stands for `tmpl.Execute(w, si)` as a function of the data `si`, giving the
writes it makes to `w` and the error it returns. -/
def handle (Execute : Cache → Rendering) (cache : Cache) (env : Env) : Handled :=
  let r := update cache env
  let si := r.ret
  let log :=
    match r.err with
    | some err => ["update failed: " ++ err]
    | none => []
  let w := (Execute si).writes.foldl ResponseWriter.Write ResponseWriter.fresh
  match (Execute si).err with
  | none =>
    let w := w.finish
    { rendered := si, status := w.status, body := w.body, log := log,
      cache := r.cache, fetches := r.fetches }
  | some err =>
    let w := (httpError w "failed to generate response!" StatusInternalServerError).finish
    { rendered := si, status := w.status, body := w.body,
      log := log ++ ["response generation failed: " ++ err],
      cache := r.cache, fetches := r.fetches }

/-! ## Sequences of calls -/

/-- A sequence of calls of `update`, one per environment and each run to its
end before the next, starting with the package variable equal to `cache`: the
package variable afterwards, and the HTTP exchanges performed, oldest first. -/
def run (cache : Cache) : List Env → Cache × List Fetch
  | [] => (cache, [])
  | env :: envs =>
    let r := update cache env
    let rest := run r.cache envs
    (rest.1, r.fetches ++ rest.2)

/-- The decoded response of the most recent successful exchange of a log
(oldest first), or `none` when no exchange of the log succeeded. -/
def lastDecoded : List Fetch → Option GetServerListResponse
  | [] => none
  | f :: fs =>
    match lastDecoded fs with
    | some response => some response
    | none =>
      match f with
      | .decoded response => some response
      | _ => none

/-! ## Concrete inputs -/

/-- A server record. -/
def exampleServer : ServerInfo :=
  { Address := "203.0.113.7:27015", GamePort := 27015, SteamID := "90000000000000001",
    Name := "build", AppID := 4000, GameDirectory := "garrysmod", Version := "1.0.0.0",
    Product := "garrysmod", Region := 3, Players := 2, MaxPlayers := 16, Bots := 0,
    Map := "gm_flatgrass", Secure := true, Dedicated := true, OS := "l",
    GameType := "sandbox" }

/-- A provider response with one server. -/
def exampleResponse : GetServerListResponse := { Response := { Servers := [exampleServer] } }

/-- A cache refreshed at the instant `1000 * Minute`, holding no server. -/
def exampleCache : Cache := { LastUpdate := 1000 * Minute, Servers := [] }

/-- A call exactly one minute after the refresh of `exampleCache`, with the
provider answering `exampleResponse`. -/
def envAtBoundary : Env :=
  { now := 1001 * Minute, fetch := .decoded exampleResponse, nowAfter := 1001 * Minute + Second }

/-- A call thirty seconds after the refresh of `exampleCache`. -/
def envHalfMinute : Env :=
  { now := 1000 * Minute + 30 * Second, fetch := .decoded exampleResponse,
    nowAfter := 1000 * Minute + 31 * Second }

/-- A call seventy seconds after the refresh of `exampleCache`, forty seconds
after `envHalfMinute`. -/
def envSeventySeconds : Env :=
  { now := 1000 * Minute + 70 * Second, fetch := .decoded exampleResponse,
    nowAfter := 1000 * Minute + 71 * Second }

/-- A call a hundred seconds after the refresh of `exampleCache`, thirty
seconds after `envSeventySeconds`. -/
def envHundredSeconds : Env :=
  { now := 1000 * Minute + 100 * Second, fetch := .getFailed "timeout",
    nowAfter := 1000 * Minute + 101 * Second }

/-- A render that writes the head of the page and then fails. -/
def executeFailsMidway : Cache → Rendering :=
  fun _ => { writes := ["<!DOCTYPE html>", "<table>"],
             err := some "template: list.html: error calling region" }

/-- A call with the provider unreachable. -/
def envUnreachable : Env :=
  { now := 1001 * Minute, fetch := .getFailed "dial tcp: no route to host",
    nowAfter := 1001 * Minute + Second }

/-! ## Theorems -/

/-! ### Helper lemmas -/

/-- The fast path, as one equation. -/
theorem update_of_fresh (cache : Cache) (env : Env)
    (h : env.now < cache.LastUpdate + Minute) :
    update cache env = { ret := cache, err := none, cache := cache, fetches := [] } := by
  simp [update, Time.Before, Time.Add, h]

/-- The refresh path when `http.Get` fails, as one equation. -/
theorem update_of_getFailed (cache : Cache) (env : Env) (err : Error)
    (h : ¬ env.now < cache.LastUpdate + Minute) (hf : env.fetch = .getFailed err) :
    update cache env =
      { ret := cache, err := some err, cache := cache, fetches := [.getFailed err] } := by
  simp [update, Time.Before, Time.Add, h, hf]

/-- The refresh path when `Decode` fails, as one equation. -/
theorem update_of_decodeFailed (cache : Cache) (env : Env) (err : Error)
    (h : ¬ env.now < cache.LastUpdate + Minute) (hf : env.fetch = .decodeFailed err) :
    update cache env =
      { ret := cache, err := some err, cache := cache, fetches := [.decodeFailed err] } := by
  simp [update, Time.Before, Time.Add, h, hf]

/-- The refresh path when the response decodes, as one equation. -/
theorem update_of_decoded (cache : Cache) (env : Env) (response : GetServerListResponse)
    (h : ¬ env.now < cache.LastUpdate + Minute) (hf : env.fetch = .decoded response) :
    update cache env =
      { ret := { LastUpdate := env.nowAfter, Servers := response.Response.Servers },
        err := none,
        cache := { LastUpdate := env.nowAfter, Servers := response.Response.Servers },
        fetches := [.decoded response] } := by
  simp [update, Time.Before, Time.Add, h, hf]

/-- The value `update` returns is the package variable it leaves behind. -/
theorem update_ret_eq_cache (cache : Cache) (env : Env) :
    (update cache env).ret = (update cache env).cache := by
  unfold update
  split
  · rfl
  · split <;> rfl

/-- A call that is not on the fast path performs exactly the exchange of its
environment. -/
theorem update_stale_fetches (cache : Cache) (env : Env)
    (h : ¬ env.now < cache.LastUpdate + Minute) :
    (update cache env).fetches = [env.fetch] := by
  cases hf : env.fetch with
  | getFailed err => rw [update_of_getFailed cache env err h hf]
  | decodeFailed err => rw [update_of_decodeFailed cache env err h hf]
  | decoded response => rw [update_of_decoded cache env response h hf]

/-- The most recent successful exchange of a log in two parts is that of the
later part when it has one, and that of the earlier part otherwise. -/
theorem lastDecoded_append (fs gs : List Fetch) :
    lastDecoded (fs ++ gs) =
      match lastDecoded gs with
      | some response => some response
      | none => lastDecoded fs := by
  induction fs with
  | nil =>
    rw [List.nil_append]
    cases h : lastDecoded gs <;> simp [lastDecoded]
  | cons f fs ih =>
    rw [List.cons_append]
    simp only [lastDecoded]
    rw [ih]
    cases h : lastDecoded gs <;> simp

/-- The most recent successful exchange among those of one call. -/
theorem lastDecoded_update (cache : Cache) (env : Env) :
    match lastDecoded (update cache env).fetches with
    | none => (update cache env).cache = cache
    | some response => (update cache env).cache.Servers = response.Response.Servers := by
  by_cases h : env.now < cache.LastUpdate + Minute
  · rw [update_of_fresh cache env h]
    simp [lastDecoded]
  · cases hf : env.fetch with
    | getFailed err =>
      rw [update_of_getFailed cache env err h hf]
      simp [lastDecoded]
    | decodeFailed err =>
      rw [update_of_decodeFailed cache env err h hf]
      simp [lastDecoded]
    | decoded response =>
      rw [update_of_decoded cache env response h hf]
      simp [lastDecoded]

/-- The invariant of `run` from any starting cache: with no successful
exchange the cache is the starting one, and otherwise its servers are those of
the most recent successful exchange. -/
theorem run_invariant (envs : List Env) (cache : Cache) :
    match lastDecoded (run cache envs).2 with
    | none => (run cache envs).1 = cache
    | some response => (run cache envs).1.Servers = response.Response.Servers := by
  induction envs generalizing cache with
  | nil => simp [run, lastDecoded]
  | cons env envs ih =>
    have ih1 := ih (update cache env).cache
    have hu := lastDecoded_update cache env
    simp only [run, lastDecoded_append]
    cases hrest : lastDecoded (run (update cache env).cache envs).2 with
    | some response =>
      rw [hrest] at ih1
      simpa using ih1
    | none =>
      rw [hrest] at ih1
      simp only at ih1 ⊢
      rw [ih1]
      exact hu

/-- What `WriteHeader` leaves: the status line fixed, at the given code unless
it was fixed before, and the body as it was. -/
theorem WriteHeader_fields (w : ResponseWriter) (code : Nat) :
    (w.WriteHeader code).wroteHeader = true ∧
      (w.WriteHeader code).status = (if w.wroteHeader then w.status else code) ∧
      (w.WriteHeader code).body = w.body := by
  cases hw : w.wroteHeader <;> simp [ResponseWriter.WriteHeader, hw]

/-- What `Write` leaves: the status line fixed, at `StatusOK` unless it was
fixed before, and the data after the body. -/
theorem Write_fields (w : ResponseWriter) (data : String) :
    (w.Write data).wroteHeader = true ∧
      (w.Write data).status = (if w.wroteHeader then w.status else StatusOK) ∧
      (w.Write data).body = w.body ++ data := by
  cases hw : w.wroteHeader <;>
    simp [ResponseWriter.Write, ResponseWriter.WriteHeader, hw]

/-- What `http.Error` leaves: the status line fixed, at the given code unless it
was fixed before, and the text and a newline after the body. -/
theorem httpError_fields (w : ResponseWriter) (text : String) (code : Nat) :
    (httpError w text code).wroteHeader = true ∧
      (httpError w text code).status = (if w.wroteHeader then w.status else code) ∧
      (httpError w text code).body = w.body ++ (text ++ "\n") := by
  have h1 := WriteHeader_fields w code
  have h2 := Write_fields (w.WriteHeader code) (text ++ "\n")
  unfold httpError
  refine ⟨h2.1, ?_, ?_⟩
  · rw [h2.2.1, h1.1, h1.2.1]
    rfl
  · rw [h2.2.2, h1.2.2]

/-- Writes to a writer whose status line is fixed leave it as it is and add to
the body. -/
theorem foldl_Write_of_wroteHeader (writes : List String) (w : ResponseWriter)
    (hw : w.wroteHeader = true) :
    (writes.foldl ResponseWriter.Write w).wroteHeader = true ∧
      (writes.foldl ResponseWriter.Write w).status = w.status ∧
      (writes.foldl ResponseWriter.Write w).body = writes.foldl (· ++ ·) w.body := by
  induction writes generalizing w with
  | nil => exact ⟨hw, rfl, rfl⟩
  | cons d ds ih =>
    have h1 := Write_fields w d
    have h2 := ih (w.Write d) h1.1
    simp only [List.foldl_cons]
    refine ⟨h2.1, ?_, ?_⟩
    · rw [h2.2.1, h1.2.1, hw]
      rfl
    · rw [h2.2.2, h1.2.2]

/-- The writer after the writes of a render, from a fresh one: untouched when
there is no write, and with the status fixed at `StatusOK` otherwise. -/
theorem foldl_Write_fresh (writes : List String) :
    (writes.foldl ResponseWriter.Write ResponseWriter.fresh).wroteHeader =
        (if writes = [] then false else true) ∧
      (writes ≠ [] →
        (writes.foldl ResponseWriter.Write ResponseWriter.fresh).status = StatusOK) ∧
      (writes.foldl ResponseWriter.Write ResponseWriter.fresh).body = String.join writes := by
  cases writes with
  | nil => exact ⟨rfl, fun h => absurd rfl h, rfl⟩
  | cons d ds =>
    have h1 := Write_fields ResponseWriter.fresh d
    have h2 := foldl_Write_of_wroteHeader ds (ResponseWriter.fresh.Write d) h1.1
    simp only [List.foldl_cons]
    refine ⟨?_, ?_, ?_⟩
    · rw [h2.1]
      rfl
    · intro _
      rw [h2.2.1, h1.2.1]
      rfl
    · rw [h2.2.2, h1.2.2]
      rfl

/-- A render that returns no error is answered with `StatusOK`. -/
theorem finish_foldl_Write_fresh_status (writes : List String) :
    (writes.foldl ResponseWriter.Write ResponseWriter.fresh).finish.status = 200 := by
  have h := foldl_Write_fresh writes
  have hf := WriteHeader_fields (writes.foldl ResponseWriter.Write ResponseWriter.fresh) StatusOK
  unfold ResponseWriter.finish
  rw [hf.2.1, h.1]
  by_cases hw : writes = []
  · simp [hw, StatusOK]
  · simp only [hw, if_false, if_true]
    exact h.2.1 hw

/-- A render that returns no error is answered with what it wrote. -/
theorem finish_foldl_Write_fresh_body (writes : List String) :
    (writes.foldl ResponseWriter.Write ResponseWriter.fresh).finish.body =
      String.join writes := by
  have h := foldl_Write_fresh writes
  have hf := WriteHeader_fields (writes.foldl ResponseWriter.Write ResponseWriter.fresh) StatusOK
  unfold ResponseWriter.finish
  rw [hf.2.2, h.2.2]

/-- The status after `http.Error` with 500 on the writer a render leaves: 500
when the render wrote nothing, and the 200 of its first write otherwise. -/
theorem httpError_foldl_Write_fresh_status (writes : List String) (text : String) :
    (httpError (writes.foldl ResponseWriter.Write ResponseWriter.fresh) text
        StatusInternalServerError).finish.status =
      (if writes = [] then 500 else 200) := by
  have h := foldl_Write_fresh writes
  have he := httpError_fields (writes.foldl ResponseWriter.Write ResponseWriter.fresh) text
    StatusInternalServerError
  have hf := WriteHeader_fields
    (httpError (writes.foldl ResponseWriter.Write ResponseWriter.fresh) text
      StatusInternalServerError) StatusOK
  unfold ResponseWriter.finish
  rw [hf.2.1, he.1, if_pos rfl, he.2.1, h.1]
  by_cases hw : writes = []
  · simp [hw, StatusInternalServerError]
  · simp only [hw, if_false, if_true]
    exact h.2.1 hw

/-- The body after `http.Error` on the writer a render leaves: what the render
wrote, then the text and a newline. -/
theorem httpError_foldl_Write_fresh_body (writes : List String) (text : String) :
    (httpError (writes.foldl ResponseWriter.Write ResponseWriter.fresh) text
        StatusInternalServerError).finish.body =
      String.join writes ++ (text ++ "\n") := by
  have h := foldl_Write_fresh writes
  have he := httpError_fields (writes.foldl ResponseWriter.Write ResponseWriter.fresh) text
    StatusInternalServerError
  have hf := WriteHeader_fields
    (httpError (writes.foldl ResponseWriter.Write ResponseWriter.fresh) text
      StatusInternalServerError) StatusOK
  unfold ResponseWriter.finish
  rw [hf.2.2, he.2.2, h.2.2]

/-! ### The claims -/

/-- C1. Fast path of `update`: when the clock reading is strictly before
`cache.LastUpdate` plus one minute, the call returns the stored cache value
with a nil error, performs no fetch and leaves the cache unchanged. -/
theorem update_fast_path (cache : Cache) (env : Env)
    (h : env.now < cache.LastUpdate + Minute) :
    (update cache env).ret = cache ∧ (update cache env).err = none ∧
      (update cache env).fetches = [] ∧ (update cache env).cache = cache := by
  rw [update_of_fresh cache env h]
  exact ⟨rfl, rfl, rfl, rfl⟩

/-- C2. A failed refresh is atomic: when the cache is stale and the HTTP GET
errors or the body fails to decode, `update` returns the error with the previous
cache value and leaves the cache as it was; a call at any later clock reading is
stale again and performs a new fetch. -/
theorem update_failed_refresh (cache : Cache) (env : Env) (err : Error)
    (hstale : ¬ env.now < cache.LastUpdate + Minute)
    (hfail : env.fetch = .getFailed err ∨ env.fetch = .decodeFailed err) :
    (update cache env).err = some err ∧ (update cache env).ret = cache ∧
      (update cache env).cache = cache ∧ (update cache env).fetches = [env.fetch] ∧
      ∀ later : Env, env.now ≤ later.now →
        (update (update cache env).cache later).fetches = [later.fetch] := by
  have hlater : ∀ later : Env, env.now ≤ later.now →
      (update cache later).fetches = [later.fetch] := by
    intro later hle
    apply update_stale_fetches
    exact not_lt.mpr (le_trans (not_lt.mp hstale) hle)
  rcases hfail with hf | hf
  · rw [update_of_getFailed cache env err hstale hf, hf]
    exact ⟨rfl, rfl, rfl, rfl, hlater⟩
  · rw [update_of_decodeFailed cache env err hstale hf, hf]
    exact ⟨rfl, rfl, rfl, rfl, hlater⟩

/-- C3. A successful refresh: when the cache is stale and the provider response
decodes to `response`, `update` returns a nil error and a cache value whose
servers are exactly the list of `response` (same length, same record at every
position) and whose `LastUpdate` is the clock reading taken after the fetch; the
stored cache is the returned value, and it is the same whatever the cache held
before. -/
theorem update_successful_refresh (cache : Cache) (env : Env) (response : GetServerListResponse)
    (hstale : ¬ env.now < cache.LastUpdate + Minute)
    (hok : env.fetch = .decoded response) :
    (update cache env).err = none ∧
      (update cache env).ret.Servers = response.Response.Servers ∧
      (update cache env).ret.Servers.length = response.Response.Servers.length ∧
      (∀ i : Nat, (update cache env).ret.Servers.get? i = response.Response.Servers.get? i) ∧
      (update cache env).ret.LastUpdate = env.nowAfter ∧
      (update cache env).cache = (update cache env).ret ∧
      (update cache env).fetches = [env.fetch] ∧
      ∀ previous : Cache, ¬ env.now < previous.LastUpdate + Minute →
        (update previous env).cache = (update cache env).cache := by
  refine ⟨?_, ?_, ?_, ?_, ?_, ?_, ?_, ?_⟩
  · rw [update_of_decoded cache env response hstale hok]
  · rw [update_of_decoded cache env response hstale hok]
  · rw [update_of_decoded cache env response hstale hok]
  · intro i
    rw [update_of_decoded cache env response hstale hok]
  · rw [update_of_decoded cache env response hstale hok]
  · rw [update_of_decoded cache env response hstale hok]
  · rw [update_of_decoded cache env response hstale hok, hok]
  · intro previous hprev
    rw [update_of_decoded cache env response hstale hok,
      update_of_decoded previous env response hprev hok]

/-- C4, as the code has it. The comparison `Before` is strict: a call whose
clock reading is exactly `cache.LastUpdate` plus one minute is stale, and
`update` performs the fetch and returns what the refresh path returns (the new
value when the response decodes, the stored value with the error otherwise). -/
theorem update_boundary_is_stale (cache : Cache) (env : Env)
    (h : env.now = cache.LastUpdate + Minute) :
    (update cache env).fetches = [env.fetch] ∧
      (∀ response, env.fetch = .decoded response →
        (update cache env).err = none ∧
        (update cache env).ret =
          { LastUpdate := env.nowAfter, Servers := response.Response.Servers }) ∧
      (∀ err, env.fetch = .getFailed err ∨ env.fetch = .decodeFailed err →
        (update cache env).err = some err ∧ (update cache env).ret = cache) := by
  have hstale : ¬ env.now < cache.LastUpdate + Minute := by
    rw [h]
    exact lt_irrefl _
  refine ⟨update_stale_fetches cache env hstale, ?_, ?_⟩
  · intro response hok
    rw [update_of_decoded cache env response hstale hok]
    exact ⟨rfl, rfl⟩
  · intro err hfail
    rcases hfail with hf | hf
    · rw [update_of_getFailed cache env err hstale hf]
      exact ⟨rfl, rfl⟩
    · rw [update_of_decodeFailed cache env err hstale hf]
      exact ⟨rfl, rfl⟩

/-- C5, as the code has it. The window of one minute starts at the `LastUpdate`
of the value the first call returned, not at the first call. When the call at
`t1` refreshes the cache (stale, fetch decoded, clock reading after the fetch
not before `t1`) and `t1 < t2` with `t2 - t1` less than one minute, or more
generally when `t2` is strictly before that `LastUpdate` plus one minute, the
call at `t2` performs no fetch and returns the identical value. -/
theorem update_twice_within_ttl (cache : Cache) (e1 e2 : Env)
    (h : (¬ e1.now < cache.LastUpdate + Minute ∧ (∃ response, e1.fetch = .decoded response) ∧
            e1.now ≤ e1.nowAfter ∧ e1.now < e2.now ∧ e2.now - e1.now < Minute) ∨
          e2.now < (update cache e1).ret.LastUpdate + Minute) :
    (update (update cache e1).cache e2).fetches = [] ∧
      (update (update cache e1).cache e2).ret = (update cache e1).ret := by
  have hwin : e2.now < (update cache e1).cache.LastUpdate + Minute := by
    rcases h with ⟨hstale, ⟨response, hok⟩, h1, _, h3⟩ | h
    · rw [update_of_decoded cache e1 response hstale hok]
      show e2.now < e1.nowAfter + Minute
      linarith
    · rw [← update_ret_eq_cache]
      exact h
  rw [update_of_fresh (update cache e1).cache e2 hwin, update_ret_eq_cache]
  exact ⟨rfl, rfl⟩

/-- C6. The snapshot invariant: after any sequence of `update` calls from the
zero-valued cache, either no fetch has succeeded and the cache is still the
zero-valued one, or its servers are exactly the full list of the most recent
successful provider response. -/
theorem run_snapshot_invariant (envs : List Env) :
    match lastDecoded (run Cache.zero envs).2 with
    | none => (run Cache.zero envs).1 = Cache.zero
    | some response => (run Cache.zero envs).1.Servers = response.Response.Servers :=
  run_invariant envs Cache.zero

/-- C7, as the code has it. Refresh errors are swallowed by `handle`: the
renderer is given the cache value `update` returned, whatever the outcome of
`update`; the status is 500 exactly when the render fails before writing
anything to the response, and 200 otherwise (a render that fails after a first
write leaves the status at 200 and the text of `http.Error` after the part of
the page already written); on the first request from the zero-valued cache with
the provider unreachable the renderer is given an empty server list and, when
the render succeeds, the answer is a 200 with the rendered page. -/
theorem handle_swallows_refresh_errors (Execute : Cache → Rendering)
    (cache : Cache) (env : Env) :
    (handle Execute cache env).rendered = (update cache env).ret ∧
      ((handle Execute cache env).status = 500 ↔
        (Execute (update cache env).ret).err ≠ none ∧
          (Execute (update cache env).ret).writes = []) ∧
      ((handle Execute cache env).status = 200 ↔
        (Execute (update cache env).ret).err = none ∨
          (Execute (update cache env).ret).writes ≠ []) ∧
      ((Execute (update cache env).ret).err ≠ none →
        (handle Execute cache env).body =
          String.join (Execute (update cache env).ret).writes ++
            "failed to generate response!\n") ∧
      ∀ err, env.fetch = .getFailed err →
        (handle Execute Cache.zero env).rendered.Servers = [] ∧
        ((Execute (update Cache.zero env).ret).err = none →
          (handle Execute Cache.zero env).status = 200 ∧
          (handle Execute Cache.zero env).body =
            String.join (Execute (update Cache.zero env).ret).writes) := by
  have hr : ∀ c : Cache, (handle Execute c env).rendered = (update c env).ret := by
    intro c
    cases hx : (Execute (update c env).ret).err <;> simp [handle, hx]
  have hok : ∀ c : Cache, (Execute (update c env).ret).err = none →
      (handle Execute c env).status = 200 ∧
        (handle Execute c env).body = String.join (Execute (update c env).ret).writes := by
    intro c hx
    simp only [handle, hx]
    exact ⟨finish_foldl_Write_fresh_status _, finish_foldl_Write_fresh_body _⟩
  refine ⟨hr cache, ?_, ?_, ?_, ?_⟩
  · cases hx : (Execute (update cache env).ret).err with
    | none =>
      have := (hok cache hx).1
      simp [this]
    | some e =>
      simp only [handle, hx, httpError_foldl_Write_fresh_status]
      cases (Execute (update cache env).ret).writes <;> simp
  · cases hx : (Execute (update cache env).ret).err with
    | none =>
      have := (hok cache hx).1
      simp [this]
    | some e =>
      simp only [handle, hx, httpError_foldl_Write_fresh_status]
      cases (Execute (update cache env).ret).writes <;> simp
  · intro hx
    obtain ⟨e, he⟩ := Option.ne_none_iff_exists'.mp hx
    simp only [handle, he]
    exact httpError_foldl_Write_fresh_body _ _
  · intro err herr
    refine ⟨?_, hok Cache.zero⟩
    rw [hr]
    by_cases h : env.now < Cache.zero.LastUpdate + Minute
    · rw [update_of_fresh Cache.zero env h]
      rfl
    · rw [update_of_getFailed Cache.zero env err h herr]
      rfl

/-- C8. The function `region` is total and equals the documented table: 0 gives
"US - East", 1 "US - West", 2 "South America", 3 "Europe", 4 "Asia",
5 "Australia", 6 "Middle East", 7 "Africa", and every other integer (negative or
above 7, such as 99) gives "World". -/
theorem region_table (n : Int) (h : n < 0 ∨ 7 < n) :
    region 0 = "US - East" ∧ region 1 = "US - West" ∧ region 2 = "South America" ∧
      region 3 = "Europe" ∧ region 4 = "Asia" ∧ region 5 = "Australia" ∧
      region 6 = "Middle East" ∧ region 7 = "Africa" ∧ region 99 = "World" ∧
      region n = "World" := by
  refine ⟨rfl, rfl, rfl, rfl, rfl, rfl, rfl, rfl, rfl, ?_⟩
  unfold region
  split <;> first | rfl | omega

/-- C9. The function `platform` is total and equals the documented table: "w"
gives "Windows", "m" gives "Mac", "l" gives "Linux", and every other string (the
empty string, "W", "windows", "x") gives "Other". -/
theorem platform_table (p : String) (h : p ≠ "w" ∧ p ≠ "m" ∧ p ≠ "l") :
    platform "w" = "Windows" ∧ platform "m" = "Mac" ∧ platform "l" = "Linux" ∧
      platform "" = "Other" ∧ platform "W" = "Other" ∧ platform "windows" = "Other" ∧
      platform "x" = "Other" ∧ platform p = "Other" := by
  refine ⟨by decide, by decide, by decide, by decide, by decide, by decide, by decide, ?_⟩
  unfold platform
  split <;> simp_all

/-! ### The claims at concrete inputs -/

/-- The fast path at a call thirty seconds after the refresh. -/
theorem update_fast_path_witness :
    envHalfMinute.now < exampleCache.LastUpdate + Minute ∧
      ((update exampleCache envHalfMinute).ret = exampleCache ∧
        (update exampleCache envHalfMinute).err = none ∧
        (update exampleCache envHalfMinute).fetches = [] ∧
        (update exampleCache envHalfMinute).cache = exampleCache) :=
  ⟨by decide, update_fast_path exampleCache envHalfMinute (by decide)⟩

/-- A failed refresh with the provider unreachable. -/
theorem update_failed_refresh_witness :
    ¬ envUnreachable.now < exampleCache.LastUpdate + Minute ∧
      (update exampleCache envUnreachable).err = some "dial tcp: no route to host" ∧
      (update exampleCache envUnreachable).cache = exampleCache ∧
      (update (update exampleCache envUnreachable).cache envUnreachable).fetches =
        [envUnreachable.fetch] :=
  have h := update_failed_refresh exampleCache envUnreachable "dial tcp: no route to host"
    (by decide) (Or.inl rfl)
  ⟨by decide, h.1, h.2.2.1, h.2.2.2.2 envUnreachable (le_refl _)⟩

/-- A successful refresh seventy seconds after the previous one. -/
theorem update_successful_refresh_witness :
    ¬ envSeventySeconds.now < exampleCache.LastUpdate + Minute ∧
      (update exampleCache envSeventySeconds).err = none ∧
      (update exampleCache envSeventySeconds).ret.Servers = [exampleServer] ∧
      (update exampleCache envSeventySeconds).ret.LastUpdate = envSeventySeconds.nowAfter :=
  have h := update_successful_refresh exampleCache envSeventySeconds exampleResponse
    (by decide) rfl
  ⟨by decide, h.1, h.2.1, h.2.2.2.2.1⟩

/-- C4 as stated fails: at a clock reading exactly one minute after
`LastUpdate`, `update` performs a fetch and returns a value other than the
stored one. -/
theorem update_boundary_counterexample :
    envAtBoundary.now = exampleCache.LastUpdate + Minute ∧
      (update exampleCache envAtBoundary).fetches ≠ [] ∧
      (update exampleCache envAtBoundary).ret ≠ exampleCache := by
  decide

/-- The boundary call performs the fetch of its environment. -/
theorem update_boundary_is_stale_witness :
    envAtBoundary.now = exampleCache.LastUpdate + Minute ∧
      (update exampleCache envAtBoundary).fetches = [envAtBoundary.fetch] :=
  ⟨by decide, (update_boundary_is_stale exampleCache envAtBoundary (by decide)).1⟩

/-- C5 as stated fails: a call thirty seconds after the refresh is served from
the cache, and a second call forty seconds later performs a fetch and returns a
value other than the one the first call returned. -/
theorem update_twice_counterexample :
    envHalfMinute.now < envSeventySeconds.now ∧
      envSeventySeconds.now - envHalfMinute.now < Minute ∧
      (update (update exampleCache envHalfMinute).cache envSeventySeconds).fetches ≠ [] ∧
      (update (update exampleCache envHalfMinute).cache envSeventySeconds).ret ≠
        (update exampleCache envHalfMinute).ret := by
  decide

/-- A refresh at seventy seconds followed by a call thirty seconds later. -/
theorem update_twice_within_ttl_witness :
    (¬ envSeventySeconds.now < exampleCache.LastUpdate + Minute ∧
        (∃ response, envSeventySeconds.fetch = .decoded response) ∧
        envSeventySeconds.now ≤ envSeventySeconds.nowAfter ∧
        envSeventySeconds.now < envHundredSeconds.now ∧
        envHundredSeconds.now - envSeventySeconds.now < Minute) ∧
      (update (update exampleCache envSeventySeconds).cache envHundredSeconds).fetches = [] ∧
      (update (update exampleCache envSeventySeconds).cache envHundredSeconds).ret =
        (update exampleCache envSeventySeconds).ret :=
  have hyp : ¬ envSeventySeconds.now < exampleCache.LastUpdate + Minute ∧
      (∃ response, envSeventySeconds.fetch = .decoded response) ∧
      envSeventySeconds.now ≤ envSeventySeconds.nowAfter ∧
      envSeventySeconds.now < envHundredSeconds.now ∧
      envHundredSeconds.now - envSeventySeconds.now < Minute :=
    ⟨by decide, ⟨exampleResponse, rfl⟩, by decide, by decide, by decide⟩
  ⟨hyp, update_twice_within_ttl exampleCache envSeventySeconds envHundredSeconds (Or.inl hyp)⟩

/-- The fallback of `region` at a negative code. -/
theorem region_table_witness : ((-1 : Int) < 0 ∨ 7 < (-1 : Int)) ∧ region (-1) = "World" :=
  ⟨by decide, (region_table (-1) (by decide)).2.2.2.2.2.2.2.2.2⟩

/-- The fallback of `platform` at an unmapped code. -/
theorem platform_table_witness :
    (("x" : String) ≠ "w" ∧ ("x" : String) ≠ "m" ∧ ("x" : String) ≠ "l") ∧
      platform "x" = "Other" :=
  ⟨by decide, (platform_table "x" (by decide)).2.2.2.2.2.2.2⟩

/-- C7 as stated fails: a render that fails after writing the head of the page
is answered with status 200, not 500, and the text of `http.Error` follows the
part of the page already written. -/
theorem handle_status_counterexample :
    (executeFailsMidway (update exampleCache envHalfMinute).ret).err ≠ none ∧
      (handle executeFailsMidway exampleCache envHalfMinute).status ≠ 500 ∧
      (handle executeFailsMidway exampleCache envHalfMinute).status = 200 ∧
      (handle executeFailsMidway exampleCache envHalfMinute).body =
        "<!DOCTYPE html><table>failed to generate response!\n" := by
  decide

end Gmtracker
